import Mathlib

/-!
Verification of the order lifecycle state machine and real-time event
distribution layer of the wcp-merchant-platform repository.

The TypeScript source is shallowly embedded: pure functions become Lean
functions, the Supabase-backed store becomes an explicit `Db` value
threaded through the operations, JavaScript numbers (used for item
quantities and prices) become rationals, and ISO timestamp strings become
abstract `Nat` timestamps.  Fallible operations return `Except`.
-/

namespace Wcp

/-- Order status, from `type OrderStatus` in `src/database.ts`. -/
inductive OrderStatus where
  | pending
  | accepted
  | preparing
  | ready
  | picked_up
  | rejected
  | cancelled
deriving DecidableEq, Repr

/-- Order line item, from `interface OrderItem` in `src/database.ts`.
`qty` and `price` are JavaScript numbers, embedded as rationals;
`stationIds` is the optional list of kitchen stations the item is routed
to (`undefined` becomes `none`). -/
structure OrderItem where
  name : String
  qty : ℚ
  price : ℚ
  note : Option String := none
  stationIds : Option (List String) := none
deriving DecidableEq, Repr

/-- One entry of an order's status history, from `interface StatusHistory`
in `src/database.ts` (the ISO timestamp string is abstracted to `Nat`). -/
structure StatusHistory where
  status : OrderStatus
  timestamp : Nat
deriving DecidableEq, Repr

/-- Full order record, from `interface Order` in `src/database.ts`.
Nullable timestamp columns become `Option Nat`. -/
structure Order where
  id : String
  merchantId : String
  userId : String
  status : OrderStatus
  items : List OrderItem
  tableNumber : Option String
  pickupMethod : String
  note : String
  totalAmount : ℚ
  statusHistory : List StatusHistory
  createdAt : Nat
  updatedAt : Nat
  acceptedAt : Option Nat
  preparingAt : Option Nat
  readyAt : Option Nat
  pickedUpAt : Option Nat
deriving DecidableEq, Repr

/-- Parameters of `createOrder`, from `interface CreateOrderParams` in
`src/database.ts`.  Optional fields with JavaScript falsy-default
handling (`data.tableNumber || null`, `data.pickupMethod || 'self'`,
`data.note || ''`) are embedded as `Option`. -/
structure CreateOrderParams where
  merchantId : String
  userId : String
  items : List OrderItem
  tableNumber : Option String := none
  pickupMethod : Option String := none
  note : Option String := none
deriving DecidableEq, Repr

/-- The order store: the `orders` table, a row per order.  `getOrder`
looks a row up by id and the Supabase `update ... eq('id', orderId)`
call rewrites exactly the rows whose id matches. -/
structure Db where
  orders : List Order
deriving DecidableEq, Repr

/-- Embeds `getOrder` from `src/database.ts`: fetch the single row with
the given id, `undefined` (here `none`) when absent. -/
def getOrder (db : Db) (orderId : String) : Option Order :=
  db.orders.find? (fun o => o.id == orderId)

/-- Embeds the Supabase `.update(...).eq('id', orderId)` write: every row
whose id matches is replaced, all other rows are untouched. -/
def dbUpdateRow (db : Db) (orderId : String) (updated : Order) : Db :=
  ⟨db.orders.map (fun o => if o.id == orderId then updated else o)⟩

/-- Embeds `createOrder` from `src/database.ts`.  The total is
`items.reduce((sum, item) => sum + item.price * item.qty, 0)`, a left
fold from 0; status is seeded to `pending` and the status history to the
single entry `(pending, now)`.  `newId` stands for the id the store
assigns to the inserted row. -/
def createOrder (data : CreateOrderParams) (newId : String) (now : Nat) : Order :=
  let totalAmount := data.items.foldl (fun sum item => sum + item.price * item.qty) 0
  let statusHistory : List StatusHistory := [⟨OrderStatus.pending, now⟩]
  { id := newId
    merchantId := data.merchantId
    userId := data.userId
    status := OrderStatus.pending
    items := data.items
    tableNumber := data.tableNumber
    pickupMethod := data.pickupMethod.getD "self"
    note := data.note.getD ""
    totalAmount := totalAmount
    statusHistory := statusHistory
    createdAt := now
    updatedAt := now
    acceptedAt := none
    preparingAt := none
    readyAt := none
    pickedUpAt := none }

/-- Embeds the insert performed by `createOrder`: the new row is appended
to the `orders` table. -/
def createOrderDb (db : Db) (data : CreateOrderParams) (newId : String) (now : Nat) : Db :=
  ⟨db.orders ++ [createOrder data newId now]⟩

/-- Embeds `const STATUS_TRANSITIONS` from `src/database.ts`: the fixed
transition table, a total function from status to its allowed-next
list (empty for the three terminal states). -/
def STATUS_TRANSITIONS : OrderStatus → List OrderStatus
  | OrderStatus.pending => [OrderStatus.accepted, OrderStatus.rejected, OrderStatus.cancelled]
  | OrderStatus.accepted => [OrderStatus.preparing]
  | OrderStatus.preparing => [OrderStatus.ready]
  | OrderStatus.ready => [OrderStatus.picked_up]
  | OrderStatus.picked_up => []
  | OrderStatus.rejected => []
  | OrderStatus.cancelled => []

/-- Names of the timestamp columns of the `orders` table that
`STATUS_TIMESTAMP_FIELD` can point at. -/
inductive TsField where
  | created_at
  | accepted_at
  | preparing_at
  | ready_at
  | picked_up_at
  | updated_at
deriving DecidableEq, Repr

/-- Embeds `const STATUS_TIMESTAMP_FIELD` from `src/database.ts`. -/
def STATUS_TIMESTAMP_FIELD : OrderStatus → TsField
  | OrderStatus.pending => TsField.created_at
  | OrderStatus.accepted => TsField.accepted_at
  | OrderStatus.preparing => TsField.preparing_at
  | OrderStatus.ready => TsField.ready_at
  | OrderStatus.picked_up => TsField.picked_up_at
  | OrderStatus.rejected => TsField.updated_at
  | OrderStatus.cancelled => TsField.updated_at

/-- Writes one timestamp column of an order row.  The `created_at` and
`updated_at` cases are never reached by `updateOrderStatus` (its guard
excludes them) and leave the row as is. -/
def setTsField (o : Order) (f : TsField) (now : Nat) : Order :=
  match f with
  | TsField.accepted_at => { o with acceptedAt := some now }
  | TsField.preparing_at => { o with preparingAt := some now }
  | TsField.ready_at => { o with readyAt := some now }
  | TsField.picked_up_at => { o with pickedUpAt := some now }
  | TsField.created_at => o
  | TsField.updated_at => o

/-- Embeds the conditional timestamp write of `updateOrderStatus`:
`if (timestampField !== 'created_at' && timestampField !== 'updated_at')
updateData[timestampField] = now`. -/
def applyStatusTimestamp (o : Order) (newStatus : OrderStatus) (now : Nat) : Order :=
  let f := STATUS_TIMESTAMP_FIELD newStatus
  if f ≠ TsField.created_at ∧ f ≠ TsField.updated_at then setTsField o f now else o

/-- Errors thrown by the order lifecycle operations in `src/database.ts`.
`invalidTransition` carries the data the thrown message interpolates:
the order's current status and the allowed-next list
(`无效的状态流转: current → requested。允许的下一状态: allowed`). -/
inductive OrderError where
  | notFound
  | notAuthorized
  | invalidTransition (current : OrderStatus) (allowed : List OrderStatus)
  | notCancellable
deriving DecidableEq, Repr

/-- Embeds `updateOrderStatus` from `src/database.ts`: fetch the order
(404-style error when absent), check the acting merchant owns it, check
the requested status is in the transition table's allowed list for the
current status, then append `(newStatus, now)` to the history, set
`status` and `updated_at`, conditionally set the per-status timestamp
column, and persist.  Returns the updated store and the updated order. -/
def updateOrderStatus (db : Db) (orderId : String) (newStatus : OrderStatus)
    (merchantId : String) (now : Nat) : Except OrderError (Db × Order) :=
  match getOrder db orderId with
  | none => Except.error OrderError.notFound
  | some order =>
    if order.merchantId ≠ merchantId then
      Except.error OrderError.notAuthorized
    else
      let allowedNextStatuses := STATUS_TRANSITIONS order.status
      if newStatus ∉ allowedNextStatuses then
        Except.error (OrderError.invalidTransition order.status allowedNextStatuses)
      else
        let statusHistory := order.statusHistory ++ [⟨newStatus, now⟩]
        let base := { order with
          status := newStatus
          statusHistory := statusHistory
          updatedAt := now }
        let updated := applyStatusTimestamp base newStatus now
        Except.ok (dbUpdateRow db orderId updated, updated)

/-- Embeds `cancelOrder` from `src/database.ts`: fetch the order, check
the acting user is the order's consumer, check the status is exactly
`pending`, then set `status` to `cancelled`, append `(cancelled, now)`
to the history, set `updated_at`, and persist.  No per-status timestamp
column is written. -/
def cancelOrder (db : Db) (orderId : String) (userId : String) (now : Nat) :
    Except OrderError (Db × Order) :=
  match getOrder db orderId with
  | none => Except.error OrderError.notFound
  | some order =>
    if order.userId ≠ userId then
      Except.error OrderError.notAuthorized
    else if order.status ≠ OrderStatus.pending then
      Except.error OrderError.notCancellable
    else
      let statusHistory := order.statusHistory ++ [⟨OrderStatus.cancelled, now⟩]
      let updated := { order with
        status := OrderStatus.cancelled
        statusHistory := statusHistory
        updatedAt := now }
      Except.ok (dbUpdateRow db orderId updated, updated)

/-- Event kind, from `interface OrderEvent` in the server file. -/
inductive OrderEventType where
  | order_created
  | order_updated
  | order_status_changed
deriving DecidableEq, Repr

/-- SSE order event, from `interface OrderEvent` in the server file:
kind, order id, optional merchant and user ids, optional full order
snapshot (`data`). -/
structure OrderEvent where
  type : OrderEventType
  orderId : String
  merchantId : Option String := none
  userId : Option String := none
  data : Option Order := none
deriving DecidableEq, Repr

/-- Menu item fields the order handlers use: the name (matched against
ordered item names) and the optional kitchen-station routing list. -/
structure MenuItem where
  name : String
  stationIds : Option (List String) := none
deriving DecidableEq, Repr

/-- Pickup-method configuration, from `interface PickupMethodConfig` in
`src/database.ts` (labels omitted: no handler reads them). -/
structure PickupMethodConfig where
  id : String
  enabled : Bool
  requireTableNumber : Bool
deriving DecidableEq, Repr

/-- Embeds `DEFAULT_PICKUP_METHODS` from `src/database.ts`. -/
def DEFAULT_PICKUP_METHODS : List PickupMethodConfig :=
  [⟨"self_pickup", true, false⟩, ⟨"table_delivery", true, true⟩]

/-- Merchant fields the order handlers use, from `interface Merchant` in
`src/database.ts`.  `pickupMethods = none` models a null
`pickup_methods` column (which falls back to the defaults). -/
structure Merchant where
  id : String
  online : Bool
  accountStatus : String
  menuItems : List MenuItem := []
  pickupMethods : Option (List PickupMethodConfig) := none
deriving DecidableEq, Repr

/-- Embeds `getMerchantPickupMethods`: the merchant's configured list,
falling back to `DEFAULT_PICKUP_METHODS` when the column is null. -/
def getMerchantPickupMethods (m : Merchant) : List PickupMethodConfig :=
  m.pickupMethods.getD DEFAULT_PICKUP_METHODS

/-- Embeds `validatePickupMethod` from `src/database.ts`: looks for an
enabled configured method with the given id; returns
`(valid, requireTableNumber)`. -/
def validatePickupMethod (m : Merchant) (pickupMethodId : String) : Bool × Bool :=
  match (getMerchantPickupMethods m).find? (fun c => c.id == pickupMethodId && c.enabled) with
  | none => (false, false)
  | some c => (true, c.requireTableNumber)

/-- Authenticated user as the handlers see it (id from the token, account
status loaded by the auth middleware). -/
structure User where
  id : String
  accountStatus : String
deriving DecidableEq, Repr

/-- The collaborating store state a handler reads: the orders table, the
merchants table, and the user-to-merchant ownership mapping behind
`getUserMerchantId`. -/
structure World where
  db : Db
  merchants : List Merchant
  userMerchant : List (String × String)
deriving DecidableEq, Repr

/-- Embeds `getMerchant` (row lookup by merchant id). -/
def getMerchant (w : World) (merchantId : String) : Option Merchant :=
  w.merchants.find? (fun m => m.id == merchantId)

/-- Embeds `getUserMerchantId`: the merchant owned by the user, `none`
when the user is not a merchant. -/
def getUserMerchantId (w : World) (userId : String) : Option String :=
  (w.userMerchant.find? (fun p => p.1 == userId)).map Prod.snd

/-- Raw order item of a create-order request body.  `name = ""` models a
missing or empty name (both falsy in `!item.name`); `qty = none` and
`price = none` model a field whose `typeof` is not `'number'`. -/
structure OrderItemInput where
  name : String
  qty : Option ℚ
  price : Option ℚ
  note : Option String := none
deriving DecidableEq, Repr

/-- Create-order request body.  `merchantId = ""` models a missing
merchant id (falsy check `!merchantId`); a missing `items` field and an
empty array behave identically in the handler and are both modelled by
`[]`. -/
structure CreateOrderBody where
  merchantId : String
  items : List OrderItemInput
  tableNumber : Option String := none
  pickupMethod : Option String := none
  note : Option String := none
deriving DecidableEq, Repr

/-- JavaScript `x || d` for an optional string: the default replaces both
a missing value and the empty string. -/
def jsOr (s : Option String) (d : String) : String :=
  match s with
  | none => d
  | some t => if t = "" then d else t

/-- JavaScript falsiness of an optional string (`!x`). -/
def jsFalsy (s : Option String) : Bool :=
  match s with
  | none => true
  | some t => t == ""

/-- The per-item check `!item.name || typeof item.qty !== 'number' ||
item.qty <= 0` of the POST /api/orders handler. -/
def itemNameQtyInvalid (i : OrderItemInput) : Bool :=
  i.name == "" ||
    match i.qty with
    | none => true
    | some q => decide (q ≤ 0)

/-- The per-item check `typeof item.price !== 'number' || item.price < 0`
of the POST /api/orders handler. -/
def itemPriceInvalid (i : OrderItemInput) : Bool :=
  match i.price with
  | none => true
  | some p => decide (p < 0)

/-- The combined body validation of the POST /api/orders handler: missing
merchant id, missing/empty items, or any item failing its per-item
checks (each of these paths answers 400). -/
def bodyMalformed (b : CreateOrderBody) : Bool :=
  b.merchantId == "" || b.items.isEmpty ||
    b.items.any (fun i => itemNameQtyInvalid i || itemPriceInvalid i)

/-- Embeds the `itemsWithStationIds` mapping of the POST /api/orders
handler: each ordered item is tagged with the station list of the menu
item of the same name (`menuItem?.stationIds || undefined`).  The `getD
0` extractions are exact because the handler only reaches this point
after validating that `qty` and `price` are numbers. -/
def itemsWithStationIds (menuItems : List MenuItem) (items : List OrderItemInput) :
    List OrderItem :=
  items.map (fun item =>
    let menuItem := menuItems.find? (fun m => m.name == item.name)
    { name := item.name
      qty := item.qty.getD 0
      price := item.price.getD 0
      note := item.note
      stationIds := menuItem.bind MenuItem.stationIds })

/-- Outcome of one HTTP handler invocation: response status, the store
after the call, the order events emitted via `emitOrderEvent`, and the
order carried in the response body, when any. -/
structure HandlerResult where
  status : Nat
  db : Db
  events : List OrderEvent
  order : Option Order := none
deriving DecidableEq, Repr

/-- Embeds the POST /api/orders handler: account-status checks, body
validation, merchant existence / online / account checks, pickup-method
validation, then `createOrder` followed by `emitOrderEvent` with an
`order_created` event, answering 201. -/
def createOrderHandler (w : World) (user : User) (body : CreateOrderBody)
    (newId : String) (now : Nat) : HandlerResult :=
  if user.accountStatus = "banned" then ⟨403, w.db, [], none⟩
  else if user.accountStatus = "suspended" then ⟨403, w.db, [], none⟩
  else if body.merchantId = "" then ⟨400, w.db, [], none⟩
  else if body.items.isEmpty then ⟨400, w.db, [], none⟩
  else if body.items.any (fun i => itemNameQtyInvalid i || itemPriceInvalid i) then
    ⟨400, w.db, [], none⟩
  else
    match getMerchant w body.merchantId with
    | none => ⟨404, w.db, [], none⟩
    | some merchant =>
      if merchant.online = false then ⟨400, w.db, [], none⟩
      else if merchant.accountStatus = "banned" ∨ merchant.accountStatus = "suspended" ∨
          merchant.accountStatus = "expired" then ⟨403, w.db, [], none⟩
      else
        let selectedPickupMethod := jsOr body.pickupMethod "self_pickup"
        let validation := validatePickupMethod merchant selectedPickupMethod
        if validation.1 = false then ⟨400, w.db, [], none⟩
        else if validation.2 = true ∧ jsFalsy body.tableNumber = true then ⟨400, w.db, [], none⟩
        else
          let params : CreateOrderParams :=
            { merchantId := body.merchantId
              userId := user.id
              items := itemsWithStationIds merchant.menuItems body.items
              tableNumber := if jsFalsy body.tableNumber then none else body.tableNumber
              pickupMethod := some selectedPickupMethod
              note := some (body.note.getD "") }
          let order := createOrder params newId now
          let event : OrderEvent :=
            { type := OrderEventType.order_created
              orderId := order.id
              merchantId := some body.merchantId
              userId := some user.id
              data := some order }
          ⟨201, createOrderDb w.db params newId now, [event], some order⟩

/-- Embeds `const validStatuses` of the PATCH /api/orders/:id/status
handler. -/
def validStatuses : List OrderStatus :=
  [OrderStatus.accepted, OrderStatus.rejected, OrderStatus.preparing,
   OrderStatus.ready, OrderStatus.picked_up]

/-- The merchant account check of the PATCH /api/orders/:id/status
handler: `merchant && (banned || suspended || expired)`. -/
def merchantAccountBlocked (w : World) (merchantId : String) : Bool :=
  match getMerchant w merchantId with
  | some m =>
    m.accountStatus == "banned" || m.accountStatus == "suspended" ||
      m.accountStatus == "expired"
  | none => false

/-- Embeds the PATCH /api/orders/:id/status handler: account checks,
request-status validation, merchant resolution, then
`updateOrderStatus`; every error the engine throws is caught and
answered with status 400 (`err(res, 400, e.message)`); on success an
`order_status_changed` event is emitted and the updated order returned
with 200.  `status = none` models a missing or unparsable status
field. -/
def patchOrderStatusHandler (w : World) (user : User) (orderId : String)
    (status : Option OrderStatus) (now : Nat) : HandlerResult :=
  if user.accountStatus = "banned" then ⟨403, w.db, [], none⟩
  else if user.accountStatus = "suspended" then ⟨403, w.db, [], none⟩
  else
    match status with
    | none => ⟨400, w.db, [], none⟩
    | some st =>
      if st ∉ validStatuses then ⟨400, w.db, [], none⟩
      else
        match getUserMerchantId w user.id with
        | none => ⟨403, w.db, [], none⟩
        | some merchantId =>
          if merchantAccountBlocked w merchantId then ⟨403, w.db, [], none⟩
          else
            match updateOrderStatus w.db orderId st merchantId now with
            | Except.error _ => ⟨400, w.db, [], none⟩
            | Except.ok (db', order) =>
              let event : OrderEvent :=
                { type := OrderEventType.order_status_changed
                  orderId := order.id
                  merchantId := some order.merchantId
                  userId := some order.userId
                  data := some order }
              ⟨200, db', [event], some order⟩

/-- Embeds the PATCH /api/orders/:id/cancel handler: calls `cancelOrder`;
any engine error is answered with 400, success emits an
`order_status_changed` event and returns the cancelled order with
200. -/
def cancelOrderHandler (db : Db) (userId : String) (orderId : String) (now : Nat) :
    HandlerResult :=
  match cancelOrder db orderId userId now with
  | Except.error _ => ⟨400, db, [], none⟩
  | Except.ok (db', order) =>
    let event : OrderEvent :=
      { type := OrderEventType.order_status_changed
        orderId := order.id
        merchantId := some order.merchantId
        userId := some order.userId
        data := some order }
    ⟨200, db', [event], some order⟩

/-- Embeds the per-item station check of the merchant stream listener:
an item is relevant when its `stationIds` is absent or empty
(broadcast to all stations) or contains the requested station id. -/
def itemRelevantToStation (item : OrderItem) (stationId : String) : Bool :=
  match item.stationIds with
  | none => true
  | some ids => if ids.isEmpty then true else ids.contains stationId

/-- Embeds the listener body of GET /api/orders/merchant/stream: an event
is written to the connection when its merchant id equals the stream's
merchant; the station filter is consulted only when a station id was
supplied (and non-empty, `stationId` being falsy otherwise), the event
carries a data snapshot, and the event kind is `order_created`; in that
case the event is written exactly when some item of the order is
relevant to the station. -/
def merchantStreamDelivers (merchantId : String) (stationId : Option String)
    (event : OrderEvent) : Bool :=
  if event.merchantId == some merchantId then
    match stationId, event.data with
    | some sid, some order =>
      if sid ≠ "" ∧ event.type = OrderEventType.order_created then
        order.items.any (fun item => itemRelevantToStation item sid)
      else true
    | _, _ => true
  else false

/-- Embeds the listener body of GET /api/orders/:id/stream: an event is
written to the connection exactly when its order id matches. -/
def orderStreamDelivers (orderId : String) (event : OrderEvent) : Bool :=
  event.orderId == orderId

/-- One listener registered on the event bus, abstracted to its identity
and, per event, whether invoking it raises an exception. -/
structure Listener where
  id : Nat
  throws : OrderEvent → Bool

/-- Models Node's `EventEmitter.emit` for the listener list of one topic:
handlers run synchronously in registration order; a handler that throws
is invoked, but its exception propagates out of `emit` and the
remaining handlers of that topic are not invoked (the `events` module
does not catch listener errors).  Returns the ids of the listeners that
were invoked, and the id of the throwing listener when the emit raised. -/
def emitToListeners : List Listener → OrderEvent → List Nat × Option Nat
  | [], _ => ([], none)
  | l :: rest, e =>
    if l.throws e then ([l.id], some l.id)
    else
      let r := emitToListeners rest e
      (l.id :: r.1, r.2)

/-- The `orderEventBus` listener registry: topic/listener registrations
in registration order. -/
structure EventBus where
  subs : List (String × Listener)

/-- Listeners registered on one topic, in registration order
(`EventEmitter.listeners(topic)`). -/
def listenersFor (bus : EventBus) (topic : String) : List Listener :=
  bus.subs.filterMap (fun p => if p.1 == topic then some p.2 else none)

/-- The topics `emitOrderEvent` emits to, in order: the firehose topic,
then the order / merchant / user topics when the corresponding id is
present (truthy). -/
def emitOrderEventTopics (e : OrderEvent) : List String :=
  ["order_event"]
    ++ (if e.orderId = "" then [] else ["order:" ++ e.orderId])
    ++ (match e.merchantId with | some m => ["merchant:" ++ m] | none => [])
    ++ (match e.userId with | some u => ["user:" ++ u] | none => [])

/-- Sequential emit over a topic list: an exception raised while emitting
on one topic aborts the whole sequence (the remaining `emit` calls of
`emitOrderEvent` never run) and propagates to the caller. -/
def emitTopicsSeq (bus : EventBus) : List String → OrderEvent → List Nat × Option Nat
  | [], _ => ([], none)
  | t :: rest, e =>
    let r := emitToListeners (listenersFor bus t) e
    match r.2 with
    | some i => (r.1, some i)
    | none =>
      let r' := emitTopicsSeq bus rest e
      (r.1 ++ r'.1, r'.2)

/-- Embeds `emitOrderEvent`: emit the event on each of its topics in
order.  The result is the list of invoked listener ids and, when a
listener threw, the id of that listener (the exception the caller of
`emitOrderEvent` observes). -/
def emitOrderEvent (bus : EventBus) (e : OrderEvent) : List Nat × Option Nat :=
  emitTopicsSeq bus (emitOrderEventTopics e) e

/-- The resources of the streaming layer a connection's `cleanup`
touches: the bus registrations (topic, listener id) and the active
heartbeat interval timers. -/
structure ConnResources where
  subs : List (String × Nat)
  timers : List Nat
deriving DecidableEq, Repr

/-- Models `EventEmitter.off(topic, listener)`: removes at most one
registration of exactly this listener on this topic; a no-op when the
listener is not registered there. -/
def offListener : List (String × Nat) → String → Nat → List (String × Nat)
  | [], _, _ => []
  | p :: rest, t, l => if p = (t, l) then rest else p :: offListener rest t l

/-- Models `clearInterval(timer)`: cancels exactly that timer; a no-op on
an already-cleared timer. -/
def clearIntervalTimer (timers : List Nat) (timerId : Nat) : List Nat :=
  timers.filter (fun t => t ≠ timerId)

/-- Embeds the `cleanup` closure of both stream handlers: unsubscribe the
connection's listener from its topic and cancel its heartbeat timer,
together. -/
def cleanup (st : ConnResources) (topic : String) (listenerId : Nat) (timerId : Nat) :
    ConnResources :=
  ⟨offListener st.subs topic listenerId, clearIntervalTimer st.timers timerId⟩

/-! ## Sample values used by witnesses and counterexamples -/

/-- Sample pending order. -/
def samplePendingOrder : Order :=
  { id := "o1", merchantId := "m1", userId := "u1", status := OrderStatus.pending,
    items := [{ name := "Taco", qty := 2, price := 5 }], tableNumber := none,
    pickupMethod := "self_pickup", note := "", totalAmount := 10,
    statusHistory := [⟨OrderStatus.pending, 0⟩], createdAt := 0, updatedAt := 0,
    acceptedAt := none, preparingAt := none, readyAt := none, pickedUpAt := none }

/-- Sample order already accepted by merchant m1. -/
def sampleAcceptedOrder : Order :=
  { samplePendingOrder with
    status := OrderStatus.accepted
    statusHistory := [⟨OrderStatus.pending, 0⟩, ⟨OrderStatus.accepted, 1⟩]
    updatedAt := 1
    acceptedAt := some 1 }

/-- Store holding only the sample pending order. -/
def samplePendingDb : Db := ⟨[samplePendingOrder]⟩

/-- Store holding only the sample accepted order. -/
def sampleAcceptedDb : Db := ⟨[sampleAcceptedOrder]⟩

/-- The sample pending order after `updateOrderStatus` to accepted at
time 5. -/
def sampleUpdatedOrder : Order :=
  { samplePendingOrder with
    status := OrderStatus.accepted
    statusHistory := [⟨OrderStatus.pending, 0⟩, ⟨OrderStatus.accepted, 5⟩]
    updatedAt := 5
    acceptedAt := some 5 }

/-- The sample store after the update to accepted at time 5. -/
def sampleUpdatedDb : Db := ⟨[sampleUpdatedOrder]⟩

/-- The sample pending order after rejection at time 5: no per-status
timestamp column is written. -/
def sampleRejectedOrder : Order :=
  { samplePendingOrder with
    status := OrderStatus.rejected
    statusHistory := [⟨OrderStatus.pending, 0⟩, ⟨OrderStatus.rejected, 5⟩]
    updatedAt := 5 }

/-- The sample store after the rejection at time 5. -/
def sampleRejectedDb : Db := ⟨[sampleRejectedOrder]⟩

/-- Sample merchant m1, online with an active account. -/
def sampleMerchantM1 : Merchant :=
  { id := "m1", online := true, accountStatus := "active" }

/-- Sample merchant-side user owning merchant m1. -/
def sampleMerchantUser : User := ⟨"mu1", "active"⟩

/-- Sample world: the accepted order, merchant m1, and the merchant
user's ownership row. -/
def sampleAcceptedWorld : World :=
  { db := sampleAcceptedDb, merchants := [sampleMerchantM1],
    userMerchant := [("mu1", "m1")] }

/-- Sample merchant m2: exists, account active, but not accepting
orders (offline). -/
def offlineMerchant : Merchant :=
  { id := "m2", online := false, accountStatus := "active" }

/-- World holding only the offline merchant m2. -/
def offlineWorld : World :=
  { db := ⟨[]⟩, merchants := [offlineMerchant], userMerchant := [] }

/-- Sample consumer-side user with an active account. -/
def consumerUser : User := ⟨"u1", "active"⟩

/-- Well-formed create-order body addressed to merchant m2. -/
def sampleCreateBody : CreateOrderBody :=
  { merchantId := "m2", items := [{ name := "Taco", qty := some 2, price := some 5 }] }

/-- Well-formed create-order body addressed to merchant m1. -/
def sampleCreateBodyM1 : CreateOrderBody :=
  { merchantId := "m1", items := [{ name := "Taco", qty := some 2, price := some 5 }] }

/-- World holding only the online merchant m1. -/
def onlineWorld : World :=
  { db := ⟨[]⟩, merchants := [sampleMerchantM1], userMerchant := [] }

/-- Sample merchant m2, online with an active account. -/
def merchantM2 : Merchant := { id := "m2", online := true, accountStatus := "active" }

/-- World where the pending order belongs to merchant m1 but the acting
user owns merchant m2. -/
def wrongMerchantWorld : World :=
  { db := ⟨[samplePendingOrder]⟩, merchants := [merchantM2],
    userMerchant := [("mu2", "m2")] }

/-- The merchant-side user owning merchant m2. -/
def merchantUser2 : User := ⟨"mu2", "active"⟩

/-- Item routed only to kitchen station S2. -/
def s2Item : OrderItem :=
  { name := "Sushi", qty := 1, price := 3, stationIds := some ["S2"] }

/-- Order containing only the S2-tagged item. -/
def s2Order : Order := { samplePendingOrder with items := [s2Item] }

/-- Created event for the S2-only order, addressed to merchant m1. -/
def s2CreatedEvent : OrderEvent :=
  ⟨OrderEventType.order_created, "o1", some "m1", some "u1", some s2Order⟩

/-- Status-changed event for the S2-only order, addressed to merchant m1. -/
def s2StatusEvent : OrderEvent :=
  ⟨OrderEventType.order_status_changed, "o1", some "m1", some "u1", some s2Order⟩

/-- A listener that always throws. -/
def throwingListener : Listener := ⟨0, fun _ => true⟩

/-- A listener that never throws. -/
def quietListener : Listener := ⟨1, fun _ => false⟩

/-- Bus with the throwing listener registered before the quiet one on
merchant m1's topic. -/
def twoListenerBus : EventBus :=
  ⟨[("merchant:m1", throwingListener), ("merchant:m1", quietListener)]⟩

/-- Created event addressed to merchant m1, as `emitOrderEvent`
receives it. -/
def m1CreatedEvent : OrderEvent :=
  ⟨OrderEventType.order_created, "o1", some "m1", none, none⟩

/-- Streaming resources of two open connections: two bus registrations
and two heartbeat timers. -/
def sampleConn : ConnResources :=
  ⟨[("merchant:m1", 0), ("merchant:m2", 1)], [10, 11]⟩

/-! ## Helper lemmas -/

/-- The left fold computing the order total equals the sum of the
price-times-quantity map. -/
lemma foldl_price_qty (l : List OrderItem) (a : ℚ) :
    l.foldl (fun sum item => sum + item.price * item.qty) a
      = a + (l.map (fun item => item.price * item.qty)).sum := by
  induction l generalizing a with
  | nil => simp
  | cons x xs ih =>
    simp only [List.foldl_cons, List.map_cons, List.sum_cons, ih]
    ring

/-- The conditional per-status timestamp write never touches the status
field. -/
lemma applyStatusTimestamp_status (o : Order) (s : OrderStatus) (n : Nat) :
    (applyStatusTimestamp o s n).status = o.status := by
  cases s <;> rfl

/-- The conditional per-status timestamp write never touches the status
history. -/
lemma applyStatusTimestamp_statusHistory (o : Order) (s : OrderStatus) (n : Nat) :
    (applyStatusTimestamp o s n).statusHistory = o.statusHistory := by
  cases s <;> rfl

/-- Shape of a successful `updateOrderStatus`: the hypotheses that held
and the exact updated order. -/
lemma updateOrderStatus_ok (db : Db) (orderId : String) (newStatus : OrderStatus)
    (merchantId : String) (now : Nat) (db' : Db) (o' : Order) (order : Order)
    (horder : getOrder db orderId = some order)
    (h : updateOrderStatus db orderId newStatus merchantId now = Except.ok (db', o')) :
    order.merchantId = merchantId
      ∧ newStatus ∈ STATUS_TRANSITIONS order.status
      ∧ o' = applyStatusTimestamp
          { order with
            status := newStatus
            statusHistory := order.statusHistory ++ [⟨newStatus, now⟩]
            updatedAt := now } newStatus now
      ∧ db' = dbUpdateRow db orderId o' := by
  rw [updateOrderStatus, horder] at h
  dsimp only at h
  by_cases hm : order.merchantId = merchantId
  · rw [if_neg (fun hc => hc hm)] at h
    by_cases ht : newStatus ∈ STATUS_TRANSITIONS order.status
    · rw [if_neg (fun hc => hc ht)] at h
      simp only [Except.ok.injEq, Prod.mk.injEq] at h
      exact ⟨hm, ht, h.2.symm, by rw [← h.1, h.2]⟩
    · rw [if_pos ht] at h
      exact Except.noConfusion h
  · rw [if_pos hm] at h
    exact Except.noConfusion h

/-- Shape of a successful `cancelOrder`: the hypotheses that held and the
exact updated order. -/
lemma cancelOrder_ok (db : Db) (orderId : String) (userId : String) (now : Nat)
    (db' : Db) (o' : Order) (order : Order)
    (horder : getOrder db orderId = some order)
    (h : cancelOrder db orderId userId now = Except.ok (db', o')) :
    order.userId = userId
      ∧ order.status = OrderStatus.pending
      ∧ o' = { order with
          status := OrderStatus.cancelled
          statusHistory := order.statusHistory ++ [⟨OrderStatus.cancelled, now⟩]
          updatedAt := now }
      ∧ db' = dbUpdateRow db orderId o' := by
  rw [cancelOrder, horder] at h
  dsimp only at h
  by_cases hu : order.userId = userId
  · rw [if_neg (fun hc => hc hu)] at h
    by_cases hp : order.status = OrderStatus.pending
    · rw [if_neg (fun hc => hc hp)] at h
      simp only [Except.ok.injEq, Prod.mk.injEq] at h
      exact ⟨hu, hp, h.2.symm, by rw [← h.1, h.2]⟩
    · rw [if_pos hp] at h
      exact Except.noConfusion h
  · rw [if_pos hu] at h
    exact Except.noConfusion h

/-! ## Claims -/

/-- Claim C3: every successful `createOrder` call returns an order whose
`totalAmount` is the sum of `price * qty` over the supplied items, whose
status is `pending`, and whose status history has exactly one entry, of
status `pending`; in particular one item with qty 2 and price 5.00
yields total 10.00. -/
theorem C3_createOrder_total (data : CreateOrderParams) (newId : String) (now : Nat) :
    (createOrder data newId now).totalAmount
        = (data.items.map (fun item => item.price * item.qty)).sum
      ∧ (createOrder data newId now).status = OrderStatus.pending
      ∧ (createOrder data newId now).statusHistory.length = 1
      ∧ (createOrder data newId now).statusHistory = [⟨OrderStatus.pending, now⟩]
      ∧ (createOrder
            { merchantId := "m1", userId := "u1",
              items := [{ name := "Taco", qty := 2, price := 5 }] }
            "o1" 7).totalAmount = 10 := by
  refine ⟨?_, rfl, rfl, rfl, by norm_num [createOrder]⟩
  simp [createOrder, foldl_price_qty]

/-- Claim C2: each order operation only ever appends to `statusHistory`
(`createOrder` seeds it with the single pending entry; `updateOrderStatus`
and `cancelOrder` extend the fetched order's history by exactly one
entry), and afterwards the status of the last history entry equals the
order's current status. -/
theorem C2_statusHistory_append_only :
    (∀ (data : CreateOrderParams) (newId : String) (now : Nat),
      (createOrder data newId now).statusHistory = [⟨OrderStatus.pending, now⟩]
        ∧ (createOrder data newId now).statusHistory.getLast?
            = some ⟨(createOrder data newId now).status, now⟩)
    ∧ (∀ (db : Db) (orderId : String) (newStatus : OrderStatus) (merchantId : String)
        (now : Nat) (db' : Db) (o' order : Order),
        getOrder db orderId = some order →
        updateOrderStatus db orderId newStatus merchantId now = Except.ok (db', o') →
        o'.statusHistory = order.statusHistory ++ [⟨newStatus, now⟩]
          ∧ o'.statusHistory.getLast? = some ⟨o'.status, now⟩)
    ∧ (∀ (db : Db) (orderId : String) (userId : String) (now : Nat)
        (db' : Db) (o' order : Order),
        getOrder db orderId = some order →
        cancelOrder db orderId userId now = Except.ok (db', o') →
        o'.statusHistory = order.statusHistory ++ [⟨OrderStatus.cancelled, now⟩]
          ∧ o'.statusHistory.getLast? = some ⟨o'.status, now⟩) := by
  refine ⟨fun data newId now => ⟨rfl, rfl⟩, ?_, ?_⟩
  · intro db orderId newStatus merchantId now db' o' order horder h
    obtain ⟨-, -, ho', -⟩ := updateOrderStatus_ok db orderId newStatus merchantId now
      db' o' order horder h
    have hhist : o'.statusHistory = order.statusHistory ++ [⟨newStatus, now⟩] := by
      rw [ho', applyStatusTimestamp_statusHistory]
    have hstat : o'.status = newStatus := by
      rw [ho', applyStatusTimestamp_status]
    refine ⟨hhist, ?_⟩
    rw [hhist, hstat, List.getLast?_append_cons]
    rfl
  · intro db orderId userId now db' o' order horder h
    obtain ⟨-, -, ho', -⟩ := cancelOrder_ok db orderId userId now db' o' order horder h
    have hhist : o'.statusHistory = order.statusHistory ++ [⟨OrderStatus.cancelled, now⟩] := by
      rw [ho']
    have hstat : o'.status = OrderStatus.cancelled := by rw [ho']
    refine ⟨hhist, ?_⟩
    rw [hhist, hstat, List.getLast?_append_cons]
    rfl

/-- Claim C2, witnessed at the sample pending order moved to accepted at
time 5: the history is the old history plus one appended entry, and its
last entry's status is the order's new status. -/
theorem C2_statusHistory_append_only_witness :
    sampleUpdatedOrder.statusHistory
        = samplePendingOrder.statusHistory ++ [⟨OrderStatus.accepted, 5⟩]
      ∧ sampleUpdatedOrder.statusHistory.getLast?
        = some ⟨sampleUpdatedOrder.status, 5⟩ :=
  C2_statusHistory_append_only.2.1 samplePendingDb "o1" OrderStatus.accepted "m1" 5
    sampleUpdatedDb sampleUpdatedOrder samplePendingOrder rfl rfl

/-- Claim C10: a transition to `rejected` via `updateOrderStatus` and a
cancellation via `cancelOrder` leave the four per-status timestamp
fields `acceptedAt`, `preparingAt`, `readyAt`, `pickedUpAt` unchanged:
the updated row differs from the fetched one only in `status`,
`statusHistory` and `updatedAt`, because `STATUS_TIMESTAMP_FIELD` maps
`rejected` and `cancelled` to `updated_at`, which the write guard
skips. -/
theorem C10_no_timestamp_for_terminal :
    (∀ (db : Db) (orderId merchantId : String) (now : Nat) (db' : Db) (o' order : Order),
        getOrder db orderId = some order →
        updateOrderStatus db orderId OrderStatus.rejected merchantId now
            = Except.ok (db', o') →
        o'.acceptedAt = order.acceptedAt ∧ o'.preparingAt = order.preparingAt
          ∧ o'.readyAt = order.readyAt ∧ o'.pickedUpAt = order.pickedUpAt
          ∧ o' = { order with
              status := OrderStatus.rejected
              statusHistory := order.statusHistory ++ [⟨OrderStatus.rejected, now⟩]
              updatedAt := now })
    ∧ (∀ (db : Db) (orderId userId : String) (now : Nat) (db' : Db) (o' order : Order),
        getOrder db orderId = some order →
        cancelOrder db orderId userId now = Except.ok (db', o') →
        o'.acceptedAt = order.acceptedAt ∧ o'.preparingAt = order.preparingAt
          ∧ o'.readyAt = order.readyAt ∧ o'.pickedUpAt = order.pickedUpAt
          ∧ o' = { order with
              status := OrderStatus.cancelled
              statusHistory := order.statusHistory ++ [⟨OrderStatus.cancelled, now⟩]
              updatedAt := now }) := by
  constructor
  · intro db orderId merchantId now db' o' order horder h
    obtain ⟨-, -, ho', -⟩ := updateOrderStatus_ok db orderId OrderStatus.rejected
      merchantId now db' o' order horder h
    subst ho'
    exact ⟨rfl, rfl, rfl, rfl, rfl⟩
  · intro db orderId userId now db' o' order horder h
    obtain ⟨-, -, ho', -⟩ := cancelOrder_ok db orderId userId now db' o' order horder h
    subst ho'
    exact ⟨rfl, rfl, rfl, rfl, rfl⟩

/-- Claim C10, witnessed by rejecting the sample pending order at time 5:
all four per-status timestamp fields stay as they were. -/
theorem C10_no_timestamp_for_terminal_witness :
    sampleRejectedOrder.acceptedAt = samplePendingOrder.acceptedAt
      ∧ sampleRejectedOrder.preparingAt = samplePendingOrder.preparingAt
      ∧ sampleRejectedOrder.readyAt = samplePendingOrder.readyAt
      ∧ sampleRejectedOrder.pickedUpAt = samplePendingOrder.pickedUpAt
      ∧ sampleRejectedOrder = { samplePendingOrder with
          status := OrderStatus.rejected
          statusHistory := samplePendingOrder.statusHistory
            ++ [⟨OrderStatus.rejected, 5⟩]
          updatedAt := 5 } :=
  C10_no_timestamp_for_terminal.1 samplePendingDb "o1" "m1" 5 sampleRejectedDb
    sampleRejectedOrder samplePendingOrder rfl rfl

/-- Claim C4: `cancelOrder` succeeds exactly when the order exists, the
acting consumer is the order's consumer, and the status is exactly
`pending`; success moves the order from `pending` to `cancelled` and
appends a `(cancelled, now)` history entry; every failure is an error
and the PATCH cancel handler then leaves the store unchanged and emits
nothing. -/
theorem C4_cancelOrder_characterization (db : Db) (orderId userId : String) (now : Nat) :
    ((∃ order, getOrder db orderId = some order
        ∧ order.userId = userId ∧ order.status = OrderStatus.pending)
      ↔ ∃ r, cancelOrder db orderId userId now = Except.ok r)
    ∧ (∀ (db' : Db) (o' order : Order), getOrder db orderId = some order →
        cancelOrder db orderId userId now = Except.ok (db', o') →
        order.status = OrderStatus.pending
          ∧ o'.status = OrderStatus.cancelled
          ∧ o'.statusHistory = order.statusHistory ++ [⟨OrderStatus.cancelled, now⟩])
    ∧ (∀ e, cancelOrder db orderId userId now = Except.error e →
        cancelOrderHandler db userId orderId now = ⟨400, db, [], none⟩) := by
  refine ⟨⟨?_, ?_⟩, ?_, ?_⟩
  · rintro ⟨order, horder, hu, hp⟩
    refine ⟨(dbUpdateRow db orderId
        { order with
          status := OrderStatus.cancelled
          statusHistory := order.statusHistory ++ [⟨OrderStatus.cancelled, now⟩]
          updatedAt := now },
        { order with
          status := OrderStatus.cancelled
          statusHistory := order.statusHistory ++ [⟨OrderStatus.cancelled, now⟩]
          updatedAt := now }), ?_⟩
    rw [cancelOrder, horder]
    dsimp only
    rw [if_neg (fun hc => hc hu), if_neg (fun hc => hc hp)]
  · rintro ⟨⟨db', o'⟩, h⟩
    cases horder : getOrder db orderId with
    | none =>
      rw [cancelOrder, horder] at h
      exact Except.noConfusion h
    | some order =>
      obtain ⟨hu, hp, -, -⟩ := cancelOrder_ok db orderId userId now db' o' order horder h
      exact ⟨order, rfl, hu, hp⟩
  · intro db' o' order horder h
    obtain ⟨-, hp, ho', -⟩ := cancelOrder_ok db orderId userId now db' o' order horder h
    subst ho'
    exact ⟨hp, rfl, rfl⟩
  · intro e he
    rw [cancelOrderHandler, he]

/-- Claim C4, witnessed by Scenario 3: cancelling the sample order that
is already accepted fails (only pending is cancellable) and the cancel
handler answers 400 with the store unchanged and no event. -/
theorem C4_cancelOrder_characterization_witness :
    cancelOrder sampleAcceptedDb "o1" "u1" 5 = Except.error OrderError.notCancellable
      ∧ cancelOrderHandler sampleAcceptedDb "u1" "o1" 5
        = ⟨400, sampleAcceptedDb, [], none⟩ :=
  ⟨rfl, (C4_cancelOrder_characterization sampleAcceptedDb "o1" "u1" 5).2.2
      OrderError.notCancellable rfl⟩

/-- Claim C1: when the requested status is not in the transition table's
allowed-next list for the order's current status, `updateOrderStatus`
fails with the invalid-transition error carrying the current status and
the allowed-next list (the data its thrown message interpolates), and
the PATCH status handler then answers 400 with the store unchanged and
no event emitted. -/
theorem C1_invalid_transition (w : World) (user : User) (orderId : String)
    (st : OrderStatus) (merchantId : String) (now : Nat) (order : Order)
    (horder : getOrder w.db orderId = some order)
    (hmid : order.merchantId = merchantId)
    (hst : st ∉ STATUS_TRANSITIONS order.status)
    (hbanned : user.accountStatus ≠ "banned")
    (hsusp : user.accountStatus ≠ "suspended")
    (hvalid : st ∈ validStatuses)
    (hum : getUserMerchantId w user.id = some merchantId)
    (hmb : merchantAccountBlocked w merchantId = false) :
    updateOrderStatus w.db orderId st merchantId now
        = Except.error (OrderError.invalidTransition order.status
            (STATUS_TRANSITIONS order.status))
      ∧ patchOrderStatusHandler w user orderId (some st) now
        = ⟨400, w.db, [], none⟩ := by
  have herr : updateOrderStatus w.db orderId st merchantId now
      = Except.error (OrderError.invalidTransition order.status
          (STATUS_TRANSITIONS order.status)) := by
    rw [updateOrderStatus, horder]
    dsimp only
    rw [if_neg (fun hc => hc hmid), if_pos hst]
  refine ⟨herr, ?_⟩
  rw [patchOrderStatusHandler, if_neg hbanned, if_neg hsusp]
  dsimp only
  rw [if_neg (fun hc => hc hvalid), hum]
  dsimp only
  rw [if_neg ?_, herr]
  intro hc
  rw [hmb] at hc
  exact Bool.false_ne_true hc

/-- Claim C1, witnessed by Scenario 2's failing half: requesting `ready`
on the sample accepted order (skipping `preparing`) fails with the
invalid-transition error naming `accepted` and its allowed list, and
the PATCH handler answers 400 leaving the store unchanged. -/
theorem C1_invalid_transition_witness :
    getOrder sampleAcceptedWorld.db "o1" = some sampleAcceptedOrder
      ∧ OrderStatus.ready ∉ STATUS_TRANSITIONS sampleAcceptedOrder.status
      ∧ updateOrderStatus sampleAcceptedWorld.db "o1" OrderStatus.ready "m1" 5
          = Except.error (OrderError.invalidTransition sampleAcceptedOrder.status
              (STATUS_TRANSITIONS sampleAcceptedOrder.status))
      ∧ patchOrderStatusHandler sampleAcceptedWorld sampleMerchantUser "o1"
          (some OrderStatus.ready) 5 = ⟨400, sampleAcceptedWorld.db, [], none⟩ := by
  have h := C1_invalid_transition sampleAcceptedWorld sampleMerchantUser "o1"
    OrderStatus.ready "m1" 5 sampleAcceptedOrder rfl rfl (by decide)
    (by decide) (by decide) (by decide) rfl rfl
  exact ⟨rfl, by decide, h.1, h.2⟩

/-- Claim C5 counterexample: a create-order request addressed to an
existing merchant that is not accepting orders (offline) is answered
with status 400, not the claimed 403 (`err(res, 400, '商户当前不在线，
无法下单')`). -/
theorem C5_offline_merchant_counterexample :
    (createOrderHandler offlineWorld consumerUser sampleCreateBody "o9" 3).status = 400
      ∧ (createOrderHandler offlineWorld consumerUser sampleCreateBody "o9" 3).status
        ≠ 403 := by
  have h400 : (createOrderHandler offlineWorld consumerUser sampleCreateBody "o9" 3).status
      = 400 := rfl
  exact ⟨h400, by rw [h400]; decide⟩

/-- Claim C5 (amended): for a create-order request by a non-banned,
non-suspended user, success returns 201 with the order body and one
`order_created` event; malformed input (missing merchant id, empty
items, an item with non-positive qty or negative price) returns 400; an
unknown merchant id returns 404; and a merchant that exists but is not
accepting orders (offline) returns 400 (only a banned, suspended or
expired merchant account returns 403). -/
theorem C5_create_order_status_codes (w : World) (user : User) (body : CreateOrderBody)
    (newId : String) (now : Nat)
    (hbanned : user.accountStatus ≠ "banned")
    (hsusp : user.accountStatus ≠ "suspended") :
    (bodyMalformed body = true →
      (createOrderHandler w user body newId now).status = 400)
    ∧ (bodyMalformed body = false → getMerchant w body.merchantId = none →
      (createOrderHandler w user body newId now).status = 404)
    ∧ (∀ m, bodyMalformed body = false → getMerchant w body.merchantId = some m →
      m.online = false →
      (createOrderHandler w user body newId now).status = 400)
    ∧ (∀ m, bodyMalformed body = false → getMerchant w body.merchantId = some m →
      m.online = true →
      ¬(m.accountStatus = "banned" ∨ m.accountStatus = "suspended"
          ∨ m.accountStatus = "expired") →
      (validatePickupMethod m (jsOr body.pickupMethod "self_pickup")).1 = true →
      ¬((validatePickupMethod m (jsOr body.pickupMethod "self_pickup")).2 = true
          ∧ jsFalsy body.tableNumber = true) →
      (createOrderHandler w user body newId now).status = 201
        ∧ ∃ o, (createOrderHandler w user body newId now).order = some o
          ∧ (createOrderHandler w user body newId now).events
            = [⟨OrderEventType.order_created, o.id, some body.merchantId,
                some user.id, some o⟩]) := by
  refine ⟨?_, ?_, ?_, ?_⟩
  · intro hmal
    rw [createOrderHandler, if_neg hbanned, if_neg hsusp]
    by_cases h1 : body.merchantId = ""
    · rw [if_pos h1]
    · rw [if_neg h1]
      by_cases h2 : body.items.isEmpty = true
      · rw [if_pos h2]
      · rw [if_neg h2]
        have h3 : body.items.any (fun i => itemNameQtyInvalid i || itemPriceInvalid i)
            = true := by
          simp only [bodyMalformed, Bool.or_eq_true, beq_iff_eq, h1, false_or] at hmal
          rcases hmal with hmal | hmal
          · exact absurd hmal h2
          · exact hmal
        rw [if_pos h3]
  · intro hmal hmerch
    obtain ⟨⟨h1, h2⟩, h3⟩ := by
      simpa only [bodyMalformed, Bool.or_eq_false_iff, beq_eq_false_iff_ne, ne_eq]
        using hmal
    rw [createOrderHandler, if_neg hbanned, if_neg hsusp, if_neg h1,
      if_neg (by simp [h2]), if_neg (by simp [h3]), hmerch]
  · intro m hmal hmerch honline
    obtain ⟨⟨h1, h2⟩, h3⟩ := by
      simpa only [bodyMalformed, Bool.or_eq_false_iff, beq_eq_false_iff_ne, ne_eq]
        using hmal
    rw [createOrderHandler, if_neg hbanned, if_neg hsusp, if_neg h1,
      if_neg (by simp [h2]), if_neg (by simp [h3]), hmerch]
    dsimp only
    rw [if_pos honline]
  · intro m hmal hmerch honline hacct hv1 hreq
    obtain ⟨⟨h1, h2⟩, h3⟩ := by
      simpa only [bodyMalformed, Bool.or_eq_false_iff, beq_eq_false_iff_ne, ne_eq]
        using hmal
    rw [createOrderHandler, if_neg hbanned, if_neg hsusp, if_neg h1,
      if_neg (by simp [h2]), if_neg (by simp [h3]), hmerch]
    dsimp only
    rw [if_neg (by simp [honline]), if_neg hacct, if_neg (by simp [hv1]),
      if_neg hreq]
    exact ⟨rfl, _, rfl, rfl⟩

/-- Claim C5 (amended), witnessed on the success path: a well-formed
order to the online, active merchant m1 is answered 201 with the order
body and a single `order_created` event. -/
theorem C5_create_order_status_codes_witness :
    (bodyMalformed sampleCreateBodyM1 = false
      ∧ getMerchant onlineWorld "m1" = some sampleMerchantM1
      ∧ sampleMerchantM1.online = true)
    ∧ ((createOrderHandler onlineWorld consumerUser sampleCreateBodyM1 "o9" 3).status
        = 201
      ∧ ∃ o, (createOrderHandler onlineWorld consumerUser sampleCreateBodyM1 "o9" 3).order
          = some o
        ∧ (createOrderHandler onlineWorld consumerUser sampleCreateBodyM1 "o9" 3).events
          = [⟨OrderEventType.order_created, o.id, some "m1",
              some consumerUser.id, some o⟩]) :=
  ⟨⟨by decide, rfl, rfl⟩,
    (C5_create_order_status_codes onlineWorld consumerUser sampleCreateBodyM1 "o9" 3
        (by decide) (by decide)).2.2.2 sampleMerchantM1 (by decide) rfl rfl
      (by decide) rfl (by decide)⟩

/-- Claim C6 counterexample: the PATCH status handler's catch-all maps
every engine error to 400 (`err(res, 400, e.message)`), so a merchant
that does not own the order gets 400, not the claimed 403, and a
non-existent order id gets 400, not the claimed 404. -/
theorem C6_catch_all_counterexample :
    ((patchOrderStatusHandler wrongMerchantWorld merchantUser2 "o1"
        (some OrderStatus.accepted) 5).status = 400
      ∧ (patchOrderStatusHandler wrongMerchantWorld merchantUser2 "o1"
          (some OrderStatus.accepted) 5).status ≠ 403)
    ∧ ((patchOrderStatusHandler wrongMerchantWorld merchantUser2 "zz"
        (some OrderStatus.accepted) 5).status = 400
      ∧ (patchOrderStatusHandler wrongMerchantWorld merchantUser2 "zz"
          (some OrderStatus.accepted) 5).status ≠ 404) := by
  have h1 : (patchOrderStatusHandler wrongMerchantWorld merchantUser2 "o1"
      (some OrderStatus.accepted) 5).status = 400 := rfl
  have h2 : (patchOrderStatusHandler wrongMerchantWorld merchantUser2 "zz"
      (some OrderStatus.accepted) 5).status = 400 := rfl
  exact ⟨⟨h1, by rw [h1]; decide⟩, ⟨h2, by rw [h2]; decide⟩⟩

/-- Claim C6 (amended): for a PATCH status request by a non-banned,
non-suspended user asking for a status in the handler's valid list,
success returns 200 with the updated order body and one
`order_status_changed` event; a caller who is not a merchant gets 403;
and every error of `updateOrderStatus` — illegal transition, unknown
order id, and a merchant that does not own the order alike — is
answered 400 with the store unchanged and no event. -/
theorem C6_patch_status_codes (w : World) (user : User) (orderId : String)
    (st : OrderStatus) (now : Nat)
    (hbanned : user.accountStatus ≠ "banned")
    (hsusp : user.accountStatus ≠ "suspended")
    (hvalid : st ∈ validStatuses) :
    (getUserMerchantId w user.id = none →
      (patchOrderStatusHandler w user orderId (some st) now).status = 403)
    ∧ (∀ mid, getUserMerchantId w user.id = some mid →
        merchantAccountBlocked w mid = false →
        (∀ e, updateOrderStatus w.db orderId st mid now = Except.error e →
          patchOrderStatusHandler w user orderId (some st) now
            = ⟨400, w.db, [], none⟩)
        ∧ (∀ (db' : Db) (o' : Order),
            updateOrderStatus w.db orderId st mid now = Except.ok (db', o') →
            patchOrderStatusHandler w user orderId (some st) now
              = ⟨200, db',
                  [⟨OrderEventType.order_status_changed, o'.id, some o'.merchantId,
                    some o'.userId, some o'⟩], some o'⟩)) := by
  constructor
  · intro hnone
    rw [patchOrderStatusHandler, if_neg hbanned, if_neg hsusp]
    dsimp only
    rw [if_neg (fun hc => hc hvalid), hnone]
  · intro mid hmid hmb
    constructor
    · intro e he
      rw [patchOrderStatusHandler, if_neg hbanned, if_neg hsusp]
      dsimp only
      rw [if_neg (fun hc => hc hvalid), hmid]
      dsimp only
      rw [if_neg (by simp [hmb]), he]
    · intro db' o' hok
      rw [patchOrderStatusHandler, if_neg hbanned, if_neg hsusp]
      dsimp only
      rw [if_neg (fun hc => hc hvalid), hmid]
      dsimp only
      rw [if_neg (by simp [hmb]), hok]

/-- Claim C6 (amended), witnessed on the unknown-order path: the acting
merchant user asks to accept a non-existent order; the engine reports
the not-found error and the handler answers 400 with the store
unchanged. -/
theorem C6_patch_status_codes_witness :
    (OrderStatus.accepted ∈ validStatuses
      ∧ getUserMerchantId sampleAcceptedWorld sampleMerchantUser.id = some "m1"
      ∧ updateOrderStatus sampleAcceptedWorld.db "zz" OrderStatus.accepted "m1" 5
          = Except.error OrderError.notFound)
    ∧ patchOrderStatusHandler sampleAcceptedWorld sampleMerchantUser "zz"
        (some OrderStatus.accepted) 5 = ⟨400, sampleAcceptedWorld.db, [], none⟩ :=
  ⟨⟨by decide, rfl, rfl⟩,
    ((C6_patch_status_codes sampleAcceptedWorld sampleMerchantUser "zz"
        OrderStatus.accepted 5 (by decide) (by decide) (by decide)).2 "m1" rfl rfl).1
      OrderError.notFound rfl⟩

/-- Claim C7: on a merchant stream opened with a (non-empty) station
filter, a matching `order_created` event carrying an order snapshot is
delivered exactly when some item of the order is relevant to the
station (its `stationIds` absent/empty or containing the station id),
while matching `order_status_changed` and `order_updated` events are
always delivered. -/
theorem C7_station_filter (merchantId sid : String) (hsid : sid ≠ "")
    (event : OrderEvent) (order : Order)
    (hm : event.merchantId = some merchantId) (hd : event.data = some order) :
    (event.type = OrderEventType.order_created →
      (merchantStreamDelivers merchantId (some sid) event = true
        ↔ ∃ item ∈ order.items, itemRelevantToStation item sid = true))
    ∧ ((event.type = OrderEventType.order_status_changed
        ∨ event.type = OrderEventType.order_updated) →
      merchantStreamDelivers merchantId (some sid) event = true) := by
  constructor
  · intro htype
    simp [merchantStreamDelivers, hm, hd, htype, hsid, List.any_eq_true]
  · rintro (htype | htype) <;>
      simp [merchantStreamDelivers, hm, hd, htype, hsid]

/-- Claim C7, witnessed by Scenario 4: on the stream filtered to station
S1, delivery of the created event for the order tagged only `["S2"]`
reduces to item relevance (which no item satisfies), while the
subsequent status-changed event for the same order is delivered. -/
theorem C7_station_filter_witness :
    (merchantStreamDelivers "m1" (some "S1") s2CreatedEvent = true
      ↔ ∃ item ∈ s2Order.items, itemRelevantToStation item "S1" = true)
    ∧ merchantStreamDelivers "m1" (some "S1") s2StatusEvent = true :=
  ⟨(C7_station_filter "m1" "S1" (by decide) s2CreatedEvent s2Order rfl rfl).1 rfl,
    (C7_station_filter "m1" "S1" (by decide) s2StatusEvent s2Order rfl rfl).2
      (Or.inl rfl)⟩

/-- Claim C8 counterexample: `orderEventBus` is a plain Node
`EventEmitter`, which does not catch listener exceptions; with a
throwing listener registered before a quiet one on the same topic,
`emitOrderEvent` raises (the caller observes the exception) and the
later listener is never invoked — delivery does not proceed and the
exception is not swallowed, contrary to the claim. -/
theorem C8_listener_throw_counterexample :
    emitOrderEvent twoListenerBus m1CreatedEvent = ([0], some 0)
      ∧ (emitOrderEvent twoListenerBus m1CreatedEvent).2 ≠ none
      ∧ 1 ∉ (emitOrderEvent twoListenerBus m1CreatedEvent).1 := by
  have h : emitOrderEvent twoListenerBus m1CreatedEvent = ([0], some 0) := rfl
  exact ⟨h, by rw [h]; decide, by rw [h]; decide⟩

/-- Claim C8 (amended): when an earlier-registered listener on a topic
throws, the listeners registered after it are not invoked and the
exception propagates out of the emit (so the caller of `emitOrderEvent`
observes it); only when no listener of the topic throws is the event
delivered to every listener, in registration order. -/
theorem C8_emit_stops_at_throwing_listener :
    (∀ (pre : List Listener) (l : Listener) (rest : List Listener) (e : OrderEvent),
      (∀ p ∈ pre, p.throws e = false) → l.throws e = true →
      emitToListeners (pre ++ l :: rest) e
        = (pre.map Listener.id ++ [l.id], some l.id))
    ∧ (∀ (ls : List Listener) (e : OrderEvent),
      (∀ p ∈ ls, p.throws e = false) →
      emitToListeners ls e = (ls.map Listener.id, none)) := by
  constructor
  · intro pre l rest e hpre hl
    induction pre with
    | nil => simp [emitToListeners, hl]
    | cons p ps ih =>
      have hp : p.throws e = false := hpre p (List.mem_cons_self p ps)
      have hps : ∀ q ∈ ps, q.throws e = false :=
        fun q hq => hpre q (List.mem_cons_of_mem p hq)
      simp [emitToListeners, hp, ih hps]
  · intro ls e h
    induction ls with
    | nil => rfl
    | cons p ps ih =>
      have hp : p.throws e = false := h p (List.mem_cons_self p ps)
      have hps : ∀ q ∈ ps, q.throws e = false :=
        fun q hq => h q (List.mem_cons_of_mem p hq)
      simp [emitToListeners, hp, ih hps]

/-- Claim C8 (amended), witnessed with the always-throwing listener
first: the emit stops at it and reports its exception. -/
theorem C8_emit_stops_at_throwing_listener_witness :
    throwingListener.throws m1CreatedEvent = true
      ∧ emitToListeners [throwingListener, quietListener] m1CreatedEvent
        = ([throwingListener.id], some throwingListener.id) :=
  ⟨rfl, C8_emit_stops_at_throwing_listener.1 [] throwingListener [quietListener]
    m1CreatedEvent (by simp) rfl⟩

/-- Removing an unregistered listener is a no-op
(`EventEmitter.off` on an absent listener). -/
lemma offListener_not_mem (s : List (String × Nat)) (t : String) (l : Nat)
    (h : (t, l) ∉ s) : offListener s t l = s := by
  induction s with
  | nil => rfl
  | cons p ps ih =>
    rw [List.mem_cons, not_or] at h
    rw [offListener, if_neg (fun hp => h.1 hp.symm), ih h.2]

/-- After removing a listener registered at most once, it is gone. -/
lemma offListener_count_le_one (s : List (String × Nat)) (t : String) (l : Nat)
    (h : s.count (t, l) ≤ 1) : (t, l) ∉ offListener s t l := by
  induction s with
  | nil => simp [offListener]
  | cons p ps ih =>
    rw [offListener]
    by_cases hp : p = (t, l)
    · rw [if_pos hp]
      subst hp
      rw [List.count_cons_self] at h
      exact List.count_eq_zero.1 (by omega)
    · rw [if_neg hp]
      rw [List.count_cons_of_ne (fun he => hp he.symm)] at h
      intro hm
      rcases List.mem_cons.1 hm with he | hm2
      · exact hp he.symm
      · exact ih h hm2

/-- Removing one listener does not affect membership of any other
registration. -/
lemma offListener_mem_other (s : List (String × Nat)) (t : String) (l : Nat)
    (p : String × Nat) (hp : p ≠ (t, l)) :
    p ∈ offListener s t l ↔ p ∈ s := by
  induction s with
  | nil => simp [offListener]
  | cons q qs ih =>
    rw [offListener]
    by_cases hq : q = (t, l)
    · rw [if_pos hq]
      subst hq
      rw [List.mem_cons]
      exact ⟨fun hm => Or.inr hm, fun hm => hm.resolve_left hp⟩
    · rw [if_neg hq]
      rw [List.mem_cons, List.mem_cons, ih]

/-- Claim C9: for a connection whose listener is registered once, running
its `cleanup` a second time changes nothing (no throw, nothing freed
twice), and one `cleanup` never removes another connection's
registration nor cancels another connection's timer. -/
theorem C9_cleanup_idempotent (st : ConnResources) (topic : String)
    (listenerId timerId : Nat)
    (honce : st.subs.count (topic, listenerId) ≤ 1) :
    cleanup (cleanup st topic listenerId timerId) topic listenerId timerId
        = cleanup st topic listenerId timerId
      ∧ (∀ p, p ≠ (topic, listenerId) →
          (p ∈ (cleanup st topic listenerId timerId).subs ↔ p ∈ st.subs))
      ∧ (∀ tid, tid ≠ timerId →
          (tid ∈ (cleanup st topic listenerId timerId).timers ↔ tid ∈ st.timers)) := by
  refine ⟨?_, ?_, ?_⟩
  · have hs : offListener (offListener st.subs topic listenerId) topic listenerId
        = offListener st.subs topic listenerId :=
      offListener_not_mem _ _ _
        (offListener_count_le_one st.subs topic listenerId honce)
    have ht : clearIntervalTimer (clearIntervalTimer st.timers timerId) timerId
        = clearIntervalTimer st.timers timerId := by
      simp [clearIntervalTimer, List.filter_filter]
    simp only [cleanup]
    rw [hs, ht]
  · intro p hp
    exact offListener_mem_other st.subs topic listenerId p hp
  · intro tid htid
    simp [cleanup, clearIntervalTimer, List.mem_filter, htid]

/-- Claim C9, witnessed on two open connections: cleaning up the first
connection twice equals cleaning it up once, and the second
connection's registration and timer survive. -/
theorem C9_cleanup_idempotent_witness :
    sampleConn.subs.count ("merchant:m1", 0) ≤ 1
      ∧ cleanup (cleanup sampleConn "merchant:m1" 0 10) "merchant:m1" 0 10
        = cleanup sampleConn "merchant:m1" 0 10
      ∧ (("merchant:m2", 1) ∈ (cleanup sampleConn "merchant:m1" 0 10).subs
        ↔ ("merchant:m2", 1) ∈ sampleConn.subs)
      ∧ (11 ∈ (cleanup sampleConn "merchant:m1" 0 10).timers
        ↔ 11 ∈ sampleConn.timers) :=
  ⟨by decide,
    (C9_cleanup_idempotent sampleConn "merchant:m1" 0 10 (by decide)).1,
    (C9_cleanup_idempotent sampleConn "merchant:m1" 0 10 (by decide)).2.1
      ("merchant:m2", 1) (by decide),
    (C9_cleanup_idempotent sampleConn "merchant:m1" 0 10 (by decide)).2.2
      11 (by decide)⟩

end Wcp
